import Mathlib

/-!
Shallow embedding of `lindbladmpo/LindbladMPOSolver.py`.

The Python module is a configuration/IO wrapper: a parameter validator
(`verify_parameters`), an input-file serializer (`build`), a process invoker
(`execute`, whose subprocess exit code is treated as an external oracle), and
an output-file deserializer (`_read_data_file` / `_read_data_line`).

Modelling conventions:
* Python runtime values that can appear in a parameters dictionary are the
  inductive `PyVal` below; Python `bool` is kept as a separate constructor but
  counts as an integer wherever Python's `isinstance(x, int)` does (bool is a
  subclass of int).
* Python floats are modelled as exact rationals `ℚ`.  All numeric literals in
  the claims (0.5, 1.0, 0.732, ...) denote the same rational on both the
  serializing and the parsing side, so exactness is consistent.
* A Python dict is an insertion-ordered association list with distinct keys;
  iteration over `dict.keys()` is a fold over the list, `parameters[k]` /
  `k in parameters` are first-occurrence lookup.
* Python exceptions (raise, TypeError, ValueError, IndexError) are the
  `.error` case of `Except String`; a normal return is `.ok`.
* File writing is modelled by returning the list of lines written; file
  reading takes the list of lines of the file as input.
-/

namespace LindbladMPO

/-- A Python runtime value, as can appear in the solver's parameters
dictionary or in parsed data.  `varr dtype shape data` models a
`numpy.ndarray` with the given dtype name, shape tuple, and row-major
flattened entries. -/
inductive PyVal where
  | vint (n : Int)
  | vbool (b : Bool)
  | vfloat (q : ℚ)
  | vstr (s : String)
  | vlist (vs : List PyVal)
  | vtuple (vs : List PyVal)
  | varr (dtype : String) (shape : List Nat) (data : List ℚ)
  deriving Repr

/-- A parameters dictionary: insertion-ordered association list. -/
abbrev Config := List (String × PyVal)

/-- `parameters[key]` / `key in parameters`: first-occurrence lookup. -/
def Config.get : Config → String → Option PyVal
  | [], _ => none
  | (k, v) :: rest, key => if k = key then some v else Config.get rest key

/-- `parameters[key] = val`: update in place if the key exists (Python dicts
keep the key's position), otherwise append at the end. -/
def Config.set : Config → String → PyVal → Config
  | [], key, val => [(key, val)]
  | (k, v) :: rest, key, val =>
      if k = key then (k, val) :: rest else (k, v) :: Config.set rest key val

/-- `_is_int` (line 330): `isinstance(value, int)`; True for Python bools,
which are a subclass of int. -/
def _is_int : PyVal → Bool
  | .vint _ => true
  | .vbool _ => true
  | _ => false

/-- `_is_float` (line 335): `isinstance(value, (float, int))`; ints and bools
are accepted as floats. -/
def _is_float : PyVal → Bool
  | .vfloat _ => true
  | .vint _ => true
  | .vbool _ => true
  | _ => false

/-- Numeric value of an int/bool/float `PyVal` (True = 1, False = 0);
0 on non-numeric values, which every call site guards against.
(`mkRat` is used instead of the cast so that concrete configurations
evaluate inside the kernel.) -/
def toRat : PyVal → ℚ
  | .vint n => mkRat n 1
  | .vbool b => if b then 1 else 0
  | .vfloat q => q
  | _ => 0

/-- Integer value of an int/bool `PyVal` (True = 1, False = 0). -/
def toInt : PyVal → Int
  | .vint n => n
  | .vbool b => if b then 1 else 0
  | _ => 0

/-- `isinstance(v, str) and "" == v`: the empty-string placeholder test at the
top of the validation loop (line 384). -/
def isEmptyStr : PyVal → Bool
  | .vstr s => s = ""
  | _ => false

/-- `isinstance(v, str)`. -/
def isStr : PyVal → Bool
  | .vstr _ => true
  | _ => false

/-- Python truthiness, for `if b_uuid:` (line 115).  Arrays with more than one
element raise in Python; the validator restricts `b_unique_id` to bools or the
empty string before this is ever evaluated, so the `varr` case is unreachable
in `build` and modelled loosely. -/
def pyTruthy : PyVal → Bool
  | .vint n => n ≠ 0
  | .vbool b => b
  | .vfloat q => q ≠ 0
  | .vstr s => s ≠ ""
  | .vlist vs => ¬ vs.isEmpty
  | .vtuple vs => ¬ vs.isEmpty
  | .varr _ _ data => data.any (· ≠ 0)

mutual
/-- Python `==` on the values that the validator compares (used through
`set(...)` dedup checks): numbers compare by numeric value across
int/bool/float, strings by content, tuples and lists element-wise; values of
unrelated types are unequal. -/
def pyEqb (a b : PyVal) : Bool :=
  if _is_float a && _is_float b then toRat a == toRat b
  else
    match a, b with
    | .vstr x, .vstr y => x == y
    | .vtuple xs, .vtuple ys => pyEqbList xs ys
    | .vlist xs, .vlist ys => pyEqbList xs ys
    | _, _ => false

/-- Element-wise Python `==` on value lists. -/
def pyEqbList : List PyVal → List PyVal → Bool
  | [], [] => true
  | x :: xs, y :: ys => pyEqb x y && pyEqbList xs ys
  | _, _ => false
end

/-- Membership with Python equality (used for `set(...)` size). -/
def pyMem (v : PyVal) : List PyVal → Bool
  | [] => false
  | w :: ws => pyEqb v w || pyMem v ws

/-- `len(set(l))`: the number of Python-distinct elements of `l`. -/
def pySetSize : List PyVal → Nat
  | [] => 0
  | v :: vs => (if pyMem v vs then 0 else 1) + pySetSize vs

/-- Does the character list start with the given pattern? -/
def listStartsWith : List Char → List Char → Bool
  | _, [] => true
  | [], _ :: _ => false
  | c :: cs, p :: ps => c == p && listStartsWith cs ps

/-- Does the character list contain the pattern as a contiguous run? -/
def listHasInfix (pat : List Char) : List Char → Bool
  | [] => pat.isEmpty
  | c :: rest => listStartsWith (c :: rest) pat || listHasInfix pat rest

/-- `needle in haystack` on strings (models `str.find(needle) != -1`,
used for the dtype checks on lines 443 and 500). -/
def strContains (s pat : String) : Bool :=
  listHasInfix pat.toList s.toList

/-- Python `str.lower()` (ASCII; all vocabulary checked by the validator is
ASCII). -/
def strLower (s : String) : String := String.mk (s.toList.map Char.toLower)

/-- Python `str.strip()` with no argument: remove whitespace from both
ends. -/
def strTrim (s : String) : String :=
  String.mk (((s.toList.dropWhile Char.isWhitespace).reverse.dropWhile
    Char.isWhitespace).reverse)

/-- Python `str.strip(chars)`: remove any of `cs` from both ends. -/
def stripChars (s : String) (cs : List Char) : String :=
  let l := s.toList.dropWhile (cs.contains ·)
  String.mk ((l.reverse.dropWhile (cs.contains ·)).reverse)

/-- Render a nonnegative rational that is an exact decimal fraction the way
Python's `str()` renders the corresponding float (integral values get a
trailing `.0`, fractional values print their shortest decimal digits).
Every value a Python float can hold is a binary rational, hence an exact
decimal fraction, so the fallback branch is unreachable for modelled floats. -/
def floatReprNonneg (q : ℚ) : String :=
  if q.den = 1 then toString q.num ++ ".0"
  else
    match (List.range' 1 1100).find? (fun k => (mkRat (q.num * (10 : Int) ^ k) q.den).den == 1) with
    | some k =>
        let m := (mkRat (q.num * (10 : Int) ^ k) q.den).num.toNat
        let ip := m / 10 ^ k
        let fp := m % 10 ^ k
        let fs := toString fp
        toString ip ++ "." ++ String.mk (List.replicate (k - fs.length) '0') ++ fs
    | none => toString q.num ++ "/" ++ toString q.den

/-- Python `str()` of a float, modelled on exact decimal rationals. -/
def floatRepr (q : ℚ) : String :=
  if q < 0 then "-" ++ floatReprNonneg (-q) else floatReprNonneg q

mutual
/-- Python `str(v)`.  For `varr`, numpy's exact padding/alignment is not
reproduced (no claim serializes a whole ndarray through generic `str`). -/
def pyStr : PyVal → String
  | .vint n => toString n
  | .vbool b => if b then "True" else "False"
  | .vfloat q => floatRepr q
  | .vstr s => s
  | .vlist vs => "[" ++ String.intercalate ", " (pyReprList vs) ++ "]"
  | .vtuple vs =>
      "(" ++ String.intercalate ", " (pyReprList vs) ++
        (if vs.length == 1 then ",)" else ")")
  | .varr _ _ data => "[" ++ String.intercalate " " (data.map floatRepr) ++ "]"

/-- Python `repr(v)` as used by `str` on list/tuple elements (strings are
quoted there). -/
def pyRepr : PyVal → String
  | .vstr s => "\x27" ++ s ++ "\x27"
  | .vint n => toString n
  | .vbool b => if b then "True" else "False"
  | .vfloat q => floatRepr q
  | .vlist vs => "[" ++ String.intercalate ", " (pyReprList vs) ++ "]"
  | .vtuple vs =>
      "(" ++ String.intercalate ", " (pyReprList vs) ++
        (if vs.length == 1 then ",)" else ")")
  | .varr _ _ data => "[" ++ String.intercalate " " (data.map floatRepr) ++ "]"

/-- `repr` of each element of a list. -/
def pyReprList : List PyVal → List String
  | [] => []
  | v :: vs => pyRepr v :: pyReprList vs
end

/-- Value of a nonempty digit string. -/
def digitsToNat (cs : List Char) : Nat :=
  cs.foldl (fun a c => a * 10 + (c.toNat - 48)) 0

/-- Optional leading sign; returns (isNegative, rest). -/
def parseSign : List Char → Bool × List Char
  | '+' :: cs => (false, cs)
  | '-' :: cs => (true, cs)
  | cs => (false, cs)

/-- Python `int(s)` for decimal strings: strip whitespace, optional sign,
one or more digits; anything else raises ValueError.  (Underscore separators
and alternate bases are not modelled; no solver output uses them.) -/
def pyParseInt (s : String) : Except String Int :=
  let cs := (strTrim s).toList
  let (neg, ds) := parseSign cs
  if !ds.isEmpty && ds.all (·.isDigit) then
    .ok (if neg then -(digitsToNat ds : Int) else (digitsToNat ds : Int))
  else .error ("ValueError: invalid literal for int with base 10: " ++ s)

/-- Unsigned decimal mantissa: `digits`, `digits.`, `.digits` or
`digits.digits`. -/
def parseUnsignedDec (cs : List Char) : Option ℚ :=
  let (ip, rest) := cs.span (·.isDigit)
  match rest with
  | [] => if ip.isEmpty then none else some (mkRat (digitsToNat ip) 1)
  | '.' :: rest2 =>
      let (fp, rest3) := rest2.span (·.isDigit)
      if !rest3.isEmpty then none
      else if ip.isEmpty && fp.isEmpty then none
      else some (mkRat (digitsToNat ip * 10 ^ fp.length + digitsToNat fp) (10 ^ fp.length))
  | _ => none

/-- Exact multiplication by a power of ten (the exponent part of a float
literal), expressed through `mkRat` so that it evaluates in the kernel. -/
def mulPow10 (m : ℚ) (e : Int) : ℚ :=
  if 0 ≤ e then mkRat (m.num * (10 : Int) ^ e.toNat) m.den
  else mkRat m.num (m.den * 10 ^ (-e).toNat)

/-- Python `float(s)` for finite decimal literals with optional exponent,
modelled exactly over ℚ (`inf`/`nan` and underscore separators are not
modelled; solver output files contain plain decimals). -/
def pyParseFloat (s : String) : Except String ℚ :=
  let cs := (strTrim s).toList
  let (neg, cs1) := parseSign cs
  let (mant, rest) := cs1.span (fun c => c != 'e' && c != 'E')
  let expPart : Option Int :=
    match rest with
    | [] => some 0
    | _ :: ecs =>
        let (eneg, ds) := parseSign ecs
        if !ds.isEmpty && ds.all (·.isDigit) then
          some (if eneg then -(digitsToNat ds : Int) else (digitsToNat ds : Int))
        else none
  match parseUnsignedDec mant, expPart with
  | some m, some e => .ok (mulPow10 (if neg then -m else m) e)
  | _, _ => .error ("ValueError: could not convert string to float: " ++ s)

/-- `_get_number_of_qubits` (line 341): the value of `"N"` when present and
integer-typed, `-1` otherwise. -/
def _get_number_of_qubits (cfg : Config) : Int :=
  match cfg.get "N" with
  | some v => if _is_int v then toInt v else -1
  | none => -1

/-- `numpy.ndarray.size`: the product of the shape tuple. -/
def arrSize (sh : List Nat) : Nat := sh.prod

/-- The dtype test of lines 443 and 500: dtype name mentions int or float. -/
def dtypeNumeric (dtype : String) : Bool :=
  strContains dtype "int" || strContains dtype "float"

/-- `parameters[key] > parameters["t_final"]` for a numeric `parameters[key]`
(line 402).  Python raises TypeError when `t_final` is not comparable with a
number; a one-element ndarray coerces to its scalar under `and`-truthiness. -/
def pyGtV (v : PyVal) (w : Option PyVal) : Except String Bool :=
  match w with
  | none => .error "KeyError: t_final"
  | some w =>
      if _is_float w then .ok (decide (toRat w < toRat v))
      else
        match w with
        | .varr _ sh data =>
            if arrSize sh == 1 then .ok (decide (data.headD 0 < toRat v))
            else .error "ValueError: the truth value of an array with more than one element is ambiguous"
        | _ => .error "TypeError: comparison not supported between numeric and non-numeric"

/-- The six per-site vector keys of line 419. -/
def siteVectorKeys : List String := ["h_x", "h_y", "h_z", "g_0", "g_1", "g_2"]

/-- The six boolean keys of line 539. -/
def boolKeys : List String :=
  ["b_periodic_x", "b_periodic_y", "b_force_rho_trace", "b_unique_id",
   "b_save_final_state", "b_initial_rho_compression"]

/-- Inner element loop of the per-site vector branch (lines 434-439): first
non-float element produces Error 220 and breaks. -/
def checkSiteElems (key : String) : List PyVal → String
  | [] => ""
  | v :: vs =>
      if _is_float v then checkSiteElems key vs
      else "Error 220: " ++ key ++ "is not a float / N-length list / numpy array (of floats)\n "

/-- Row loop of the nested-list coupling-matrix branch (lines 474-496):
first offending row produces its error and breaks. -/
def checkJRows (key : String) (nq : Int) : List PyVal → String
  | [] => ""
  | row :: rows =>
      match row with
      | .vlist vals =>
          if (vals.length : Int) ≠ nq then
            "Error 290: " ++ key ++ "should be a constant, or a square matrix (nested lists/np.array) with N^2 floats\n"
          else if vals.all _is_float then checkJRows key nq rows
          else "Error 300: " ++ key ++ "should be a constant, or a square matrix (nested lists/np.array) in the size of number_of_qubits^2 of floats\n"
      | _ => "Error 280: " ++ key ++ "should be a constant, or a square matrix (nested lists/np.array) of floats with a size N^2\n "

/-- Element loop of `init_pauli_state` (lines 531-538): every offending
element contributes a diagnostic (this loop does not break). -/
def checkPauliElems (key : String) : List PyVal → String
  | [] => ""
  | v :: vs =>
      (match v with
       | .vstr s =>
           if ["+x", "-x", "+y", "-y", "+z", "-z"].contains (strLower s) then ""
           else "Error 370: " ++ key ++ " can only be one of: +x,-x,+y,-y,+z, z\n"
       | _ => "Error 360: each member of " ++ key ++ " must be a string\n")
      ++ checkPauliElems key vs

/-- Element loop of `1q_components` (lines 582-597): counts x/y/z selections,
first offending element produces its error and breaks. -/
def count1q (key : String) : List PyVal → Nat → Nat → Nat → String × Nat × Nat × Nat
  | [], x, y, z => ("", x, y, z)
  | v :: vs, x, y, z =>
      match v with
      | .vstr s =>
          let t := strLower s
          if t = "x" then count1q key vs (x + 1) y z
          else if t = "y" then count1q key vs x (y + 1) z
          else if t = "z" then count1q key vs x y (z + 1)
          else ("Error 450: " ++ key ++ " only takes x,y,z (or a subset)\n", x, y, z)
      | _ => ("Error 441: " ++ key ++ " only takes x,y,z (or a subset)\n", x, y, z)

/-- Element loop of `1q_indices` (lines 614-624): first non-integer element
produces Error 490, first out-of-range element Error 500, and breaks. -/
def check1qElems (key : String) (nq : Int) : List PyVal → String
  | [] => ""
  | v :: vs =>
      if !(_is_int v) then "Error 490: " ++ key ++ " should be an integer list (1,2,3,4..)\n"
      else if nq ≤ toInt v then "Error 500: " ++ key ++ " should be an integer list listing qubits, therefore integers in the range 0 to N-1\n"
      else check1qElems key nq vs

/-- Increment slot `i` of the `check_me` multiplicity counters. -/
def bumpCount (cm : List Nat) (i : Nat) : List Nat :=
  cm.set i (cm.getD i 0 + 1)

/-- Element loop of `2q_components` (lines 643-661): `str.lower(val)` raises
TypeError on non-strings; unknown tokens produce Error 550 and break. -/
def count2q (key : String) : List PyVal → List Nat → Except String (String × List Nat)
  | [], cm => .ok ("", cm)
  | v :: vs, cm =>
      match v with
      | .vstr s =>
          let t := strLower s
          if t = "xx" then count2q key vs (bumpCount cm 0)
          else if t = "yy" then count2q key vs (bumpCount cm 1)
          else if t = "zz" then count2q key vs (bumpCount cm 2)
          else if t = "xy" ∨ t = "yx" then count2q key vs (bumpCount cm 3)
          else if t = "xz" ∨ t = "zx" then count2q key vs (bumpCount cm 4)
          else if t = "yz" ∨ t = "zy" then count2q key vs (bumpCount cm 5)
          else .ok ("Error 550: " ++ key ++ " only accepts string from xx, yy, zz, xy, xz, yz (or a permutation thereof)\n", cm)
      | _ => .error "TypeError: descriptor lower requires a str instance"

/-- Tuple loop of `2q_indices` / `init_graph_state` (lines 683-700).
`tup[0]` and `tup[1]` are evaluated before `len(tup) != 2`, so tuples shorter
than 2 raise IndexError; offending tuples otherwise produce their error and
break. -/
def check2qElems (key : String) (nq : Int) : List PyVal → Except String String
  | [] => .ok ""
  | v :: vs =>
      match v with
      | .vtuple ts =>
          match ts.get? 0 with
          | none => .error "IndexError: tuple index out of range"
          | some t0 =>
              if !(_is_int t0) then
                .ok ("Error 600: " ++ key ++ " should be an list of tuples of size 2, containing integers\n ")
              else
                match ts.get? 1 with
                | none => .error "IndexError: tuple index out of range"
                | some t1 =>
                    if !(_is_int t1) ∨ ts.length ≠ 2 then
                      .ok ("Error 600: " ++ key ++ " should be an list of tuples of size 2, containing integers\n ")
                    else if nq ≤ toInt t0 ∨ nq ≤ toInt t1 then
                      .ok ("Error 610: " ++ key ++ " should be an list of tuples of size 2, containing integers equal/smaller than the total number of qubits\n ")
                    else check2qElems key nq vs
      | _ => .ok ("Error 590: " ++ key ++ " should be an list of tuples of size 2, containing integers\n ")

/-- The body of the `for key in dict.keys(parameters)` loop of
`verify_parameters` (lines 383-710): the diagnostic text contributed by one
key/value pair, or the exception Python would raise on it. -/
def checkKey (cfg : Config) (ignore_params : Option (List String)) (k : String) (v : PyVal) :
    Except String String :=
  if isEmptyStr v then .ok ""
  else if k = "N" then
    if !(_is_int v) then .ok ("Error 120: " ++ k ++ " should be an integer\n")
    else if toInt v ≤ 0 then .ok ("Error 130: " ++ k ++ " should be bigger/equal to 1 (integer)\n")
    else .ok ""
  else if k = "t_init" ∨ k = "t_final" ∨ k = "tau" then
    if !(_is_float v) then .ok ("Error 140: " ++ k ++ " is not a float\n")
    else if k ≠ "t_init" ∧ toRat v ≤ 0 then .ok ("Error 150: " ++ k ++ " must be larger than 0\n")
    else if k = "t_init" then do
      let gt ← pyGtV v (cfg.get "t_final")
      if gt then pure ("Error 151: " ++ k ++ " must be equal or smaller than t_final\n") else pure ""
    else .ok ""
  else if k = "l_x" ∨ k = "l_y" then
    if !(_is_int v) then .ok ("Error 160: " ++ k ++ " should be an integer\n")
    else if toInt v < 0 then .ok ("Error 170: " ++ k ++ " should be equal or larger than 1 (integer)\n")
    else .ok ""
  else if k = "output_step" ∨ k = "force_rho_hermitian_step" then
    if !(_is_int v) then .ok ("Error 180: " ++ k ++ " should be an integer\n")
    else if toInt v < 0 then .ok ("Error 190: " ++ k ++ " should be bigger/equal to 0 (integer)\n")
    else .ok ""
  else if siteVectorKeys.contains k then
    if _is_float v then .ok ""
    else
      let nq := _get_number_of_qubits cfg
      if nq = -1 then .ok ("Error 200: " ++ k ++ " could not be validated because \x27N\x27 (or alternatively l_x, l_y) are not defined properly\n ")
      else
        match v with
        | .vlist vals =>
            if (vals.length : Int) ≠ nq then .ok ("Error 210: " ++ k ++ " is not a float / N-length list / numpy array (of floats)\n")
            else .ok (checkSiteElems k vals)
        | .varr dtype sh _ =>
            if !dtypeNumeric dtype then .ok ("Error 230: " ++ k ++ " is not a float / N-length list / numpy array (of floats)\n")
            else if arrSize sh = 1 then .ok ""
            else if (sh.headD 0 : Int) ≠ nq ∨ sh.headD 0 ≠ arrSize sh then
              .ok ("Error 240: " ++ k ++ " is not a float / N-length list / numpy array (of floats)\n")
            else .ok ""
        | _ => .ok ("Error 250: " ++ k ++ " is not a float / N-length list / numpy array (of floats)\n")
  else if k = "J_z" ∨ k = "J" then
    if _is_float v then .ok ""
    else
      let nq := _get_number_of_qubits cfg
      if nq = -1 then .ok ("Error 260: " ++ k ++ " could not be validated because \x27N\x27 (or alternatively l_x, l_y) are not defined properly\n")
      else
        match v with
        | .vlist rows =>
            if (rows.length : Int) ≠ nq then .ok ("Error 270: " ++ k ++ " should be a constant, or a square matrix (nested lists/np.array) of N^2 floats\n ")
            else .ok (checkJRows k nq rows)
        | .varr dtype sh _ =>
            if !dtypeNumeric dtype then .ok ("Error 310: " ++ k ++ "should be a constant, or a square matrix (nested lists/np.array) in the size of number_of_qubits^2 of floats\n")
            else if arrSize sh = 1 then .ok ""
            else if (sh.headD 0 : Int) ≠ nq then .ok ("Error 320: " ++ k ++ "should be a constant, or a square matrix (nested lists/np.array) in the size of number_of_qubits^2 of floats\n")
            else if sh.headD 0 ^ 2 ≠ arrSize sh then .ok ("Error 330: " ++ k ++ "should be a constant, or a square matrix (nested lists/np.array) in the size of number_of_qubits^2 of floats\n")
            else .ok ""
        | _ => .ok ("Error 340: " ++ k ++ " should be a constant, or a square matrix (nested list/np.array) in the size of number_of_qubits^2 of floats\n")
  else if k = "init_pauli_state" then
    if !(isStr v) ∧ !(match v with | .vlist _ => true | _ => false) then
      .ok ("Error 350: " ++ k ++ " must not be a string or a list of strings\n")
    else
      match v with
      | .vstr _ => .ok (checkPauliElems k [v])
      | .vlist vs => .ok (checkPauliElems k vs)
      | _ => .ok ""
  else if boolKeys.contains k then
    match v with
    | .vbool _ => .ok ""
    | _ => .ok ("Error 390: " ++ k ++ " should be a boolean True or False\n")
  else if k = "trotter_order" then
    if !(_is_int v) then .ok ("Error 400: " ++ k ++ " should be 2, 3 or 4\n")
    else if toInt v ≠ 2 ∧ toInt v ≠ 3 ∧ toInt v ≠ 4 then .ok ("Error 401: " ++ k ++ " should be 2, 3 or 4\n")
    else .ok ""
  else if k = "max_dim_rho" then
    if !(_is_int v) ∨ toInt v < 0 then .ok ("Error 410: " ++ k ++ " must be a non-negative integer\n")
    else .ok ""
  else if k = "cut_off" ∨ k = "cut_off_rho" then
    if !(_is_float v) then .ok ("Error 420: " ++ k ++ " is not a float\n")
    else .ok ""
  else if k = "metadata" then
    match v with
    | .vstr s =>
        if strContains s "\n" then
          .ok ("Error 423: The metadata string cannot contain the new line character code (\x27\\n\x27). Please reformat the string\n")
        else .ok ""
    | _ => .ok ("Error 422: " ++ k ++ " is not a string\n")
  else if k = "load_files_prefix" ∨ k = "output_files_prefix" then
    if !(isStr v) then .ok ("Error 425: " ++ k ++ " is not a string\n")
    else .ok ""
  else if k = "1q_components" then
    match v with
    | .vlist vs =>
        if vs.length > 3 then .ok ("Error 440: " ++ k ++ " should be a list of size 1,2,3 with x,y,z\n")
        else
          let (msg, x, y, z) := count1q k vs 0 0 0
          if msg ≠ "" then .ok msg
          else if x > 1 ∨ y > 1 ∨ z > 1 then .ok ("Error 460: " ++ k ++ " only takes x,y,z (or a subset)\n")
          else .ok ""
    | _ => .ok ("Error 430: " ++ k ++ " should be a list of size 1,2,3 with x,y,z\n")
  else if k = "1q_indices" then
    if isEmptyStr v then .ok ""
    else
      match v with
      | .vlist vs =>
          let nq := _get_number_of_qubits cfg
          if nq = -1 then .ok ("Error 480: " ++ k ++ "could not be validated because \x27N\x27 (or alternatively l_x, l_y) are not defined properly\n ")
          else
            let msg := check1qElems k nq vs
            if msg ≠ "" then .ok msg
            else if (vs.length : Int) > nq then .ok ("Error 510: " ++ k ++ " \x27s length should be equal/smaller than the amount of qubits\n ")
            else if pySetSize vs ≠ vs.length then .ok ("Error 520: " ++ k ++ " \x27s List does not contain unique elements")
            else .ok ""
      | _ => .ok ("Error 470: " ++ k ++ " should be an integer list (1,2,3,4..)\n")
  else if k = "2q_components" then
    match v with
    | .vlist vs =>
        if vs.length > 6 then .ok ("Error 540: " ++ k ++ " only receives xx,yy,zz,xy,xz,yz (or a subset)\n")
        else do
          let (msg, cm) ← count2q k vs [0, 0, 0, 0, 0, 0]
          if msg ≠ "" then pure msg
          else if cm.any (· > 1) then
            pure ("Error 550: " ++ k ++ " only accepts string from xx, yy, zz, xy, xz, yz (or a permutation thereof)\n")
          else pure ""
    | _ => .ok ("Error 530: " ++ k ++ "only receives xx,yy,zz,xy,xz,yz (or a subset) as a strings list\n")
  else if k = "2q_indices" ∨ k = "init_graph_state" then
    match v with
    | .vlist vs =>
        let nq := _get_number_of_qubits cfg
        if nq = -1 then .ok ("Error 580: " ++ k ++ " could not be validated because \x27N\x27 (or alternatively l_x, l_y) are not defined properly\n")
        else do
          let msg ← check2qElems k nq vs
          if msg ≠ "" then pure msg
          else if (vs.length : Int) > nq ^ 2 then pure ("Error 620: " ++ k ++ " \x27s length should be smaller than N^2\n")
          else if pySetSize vs ≠ vs.length then pure ("Error 630: " ++ k ++ " \x27s List does not contains all unique elements")
          else pure ""
    | _ => .ok ("Error 570: " ++ k ++ " should be an list of tuples of size 2, containing integers\n")
  else
    match ignore_params with
    | none => .ok ("Error: unknown parameter key passed: " ++ k ++ "\n")
    | some l => if l.contains k then .ok "" else .ok ("Error: unknown parameter key passed: " ++ k ++ "\n")

/-- The cross-parameter checks at the end of `verify_parameters`
(lines 713-729): performed only when both operands are individually
well-typed and positive. -/
def crossChecks (cfg : Config) : String :=
  match cfg.get "t_final", cfg.get "tau" with
  | some tf, some tau =>
      if _is_float tau ∧ _is_float tf then
        if 0 < toRat tau ∧ 0 < toRat tf then
          if toRat tf < toRat tau then
            "Error 640: t_final (total time) is smaller than tau (time step for time evolution)\n "
          else
            match cfg.get "output_step" with
            | some os =>
                if _is_int os then
                  if 0 < toInt os then
                    if toRat tf < mkRat (toInt os * (toRat tau).num) (toRat tau).den then
                      "Error 650: output_step multiplied by tau is larger than t_final (output_step in units of tau, times tau is larger than the simulation time)\n "
                    else ""
                  else ""
                else ""
            | none => ""
        else ""
      else ""
  | _, _ => ""

/-- `verify_parameters` (line 362): returns the concatenated diagnostic text
(`.ok`), or the exception Python would raise while checking (`.error`).
The required keys `N`, `t_final`, `tau` are checked first; their absence
returns the Error 110 text immediately, before any per-key or cross-key rule.
(The `parameters is None` guard of line 376 is outside this model: a `Config`
always denotes an actual dictionary.) -/
def verify_parameters (cfg : Config) (ignore_params : Option (List String)) :
    Except String String :=
  if (cfg.get "N").isNone || (cfg.get "t_final").isNone || (cfg.get "tau").isNone then
    .ok "Error 110: N, t_final and tau must be defined as they do not have default values\n"
  else do
    let msgs ← cfg.foldlM (fun acc kv => do
      let m ← checkKey cfg ignore_params kv.1 kv.2
      pure (acc ++ m)) ""
    pure (msgs ++ crossChecks cfg)

/-- The serializer's site-index transform (line 199): Python's zero-based
caller convention to the solver's one-based convention. -/
def serSiteIndex (site : Int) : Int := site + 1

/-- The deserializer's site-index transform (lines 307/311/313): a one-based
file index back to the zero-based caller convention. -/
def deserSiteIndex (w : Int) : Int := w - 1

/-- The row-major traversal order of the double loop on lines 140-141. -/
def rowMajorPairs (r c : Nat) : List (Nat × Nat) :=
  (List.range r).flatMap (fun i => (List.range c).map (fun j => (i, j)))

/-- The bond-index loop of lines 140-144: the two parallel `append`s on the
positions where at least one coupling matrix is non-zero, one-based.
The single-matrix loop of lines 149-153 is this with both entry functions
equal. -/
def bondAppendStep (f g : Nat → Nat → ℚ) (acc : List Nat × List Nat) (p : Nat × Nat) :
    List Nat × List Nat :=
  if f p.1 p.2 ≠ 0 ∨ g p.1 p.2 ≠ 0 then (acc.1 ++ [p.1 + 1], acc.2 ++ [p.2 + 1]) else acc

def bondLoop (r c : Nat) (f g : Nat → Nat → ℚ) : List Nat × List Nat :=
  (rowMajorPairs r c).foldl (bondAppendStep f g) ([], [])

/-- Two-dimensional element access `arr[i, j]` on the row-major flattened
data.  Sub-array truthiness of arrays with three or more axes is not
modelled (no claim exercises it). -/
def arrGet2 (sh : List Nat) (data : List ℚ) (i j : Nat) : ℚ :=
  data.getD (i * sh.getD 1 0 + j) 0

/-- `shape[0]` / `shape[1]` access of the bond loops: a shape with fewer
than two axes raises IndexError, except that `shape[1]` is never evaluated
when `range(shape[0])` is empty. -/
def bondLoopShaped (sh : List Nat) (f g : Nat → Nat → ℚ) :
    Except String (List Nat × List Nat) :=
  match sh with
  | [] => .error "IndexError: tuple index out of range"
  | r :: rest =>
      if r = 0 then .ok ([], [])
      else
        match rest with
        | [] => .error "IndexError: tuple index out of range"
        | c :: _ => .ok (bondLoop r c f g)

/-- `type(parameters[k]) == np.ndarray` plus field access (lines 131-136). -/
def getArr (cfg : Config) (k : String) : Option (String × List Nat × List ℚ) :=
  match cfg.get k with
  | some (.varr d sh da) => some (d, sh, da)
  | _ => none

/-- The interactions/bond-indices stage of `build` (lines 127-153): which
coupling matrices are dense arrays, the shape-mismatch exception of line 146,
and the computed bond-index lists together with the `b_bond_indices` flag. -/
def bondStep (cfg : Config) : Except String (Bool × List Nat × List Nat) :=
  match getArr cfg "J", getArr cfg "J_z" with
  | some (_, sh1, da1), some (_, sh2, da2) =>
      if sh1 = sh2 then do
        let fs ← bondLoopShaped sh1 (arrGet2 sh1 da1) (arrGet2 sh2 da2)
        pure (true, fs.1, fs.2)
      else .error "J and J_z are not of the same size."
  | some (_, sh, da), none => do
      let fs ← bondLoopShaped sh (arrGet2 sh da) (arrGet2 sh da)
      pure (true, fs.1, fs.2)
  | none, some (_, sh, da) => do
      let fs ← bondLoopShaped sh (arrGet2 sh da) (arrGet2 sh da)
      pure (true, fs.1, fs.2)
  | none, none => .ok (false, [], [])

/-- `str()` of one numpy scalar element, by dtype. -/
def npElemStr (dtype : String) (q : ℚ) : String :=
  if strContains dtype "int" then toString q.num else floatRepr q

/-- `str()` of `arr[i]` in the generic ndarray branch (lines 176-182): the
scalar for one-dimensional arrays; for higher-rank arrays a bracketed row
(numpy's exact spacing is not reproduced; no claim serializes such a row). -/
def axis0Str (dtype : String) (sh : List Nat) (data : List ℚ) (i : Nat) : String :=
  match sh with
  | [_] => npElemStr dtype (data.getD i 0)
  | _ =>
      let rest := sh.tail.prod
      "[" ++ String.intercalate " "
        ((List.range rest).map (fun j => npElemStr dtype (data.getD (i * rest + j) 0))) ++ "]"

/-- `str(site + 1)` for one entry of `1q_indices` (line 199).  Non-numeric
entries would raise in Python; `verify_parameters` rejects them before
`build` reaches this point. -/
def sitePlusOneStr : PyVal → String
  | .vint n => toString (serSiteIndex n)
  | .vbool b => toString (serSiteIndex (if b then 1 else 0))
  | .vfloat q => floatRepr (mkRat (q.num + q.den) q.den)
  | _ => ""

/-- The comma-joined `1q_indices` value written by lines 195-203. -/
def serialize_1q_indices (sites : List PyVal) : String :=
  String.intercalate "," (sites.map sitePlusOneStr)

/-- Splitting a comma-joined serialized list back into its tokens. -/
def splitCommas (s : String) : List String :=
  (List.splitOnP (· == ',') s.toList).map String.mk

/-- `str(t[0] + 1) + "," + str(t[1] + 1)` for one pair of
`2q_indices` / `init_graph_state` (line 208). -/
def pairPlusOneStr : PyVal → String
  | .vtuple ts => sitePlusOneStr (ts.getD 0 (.vint 0)) ++ "," ++ sitePlusOneStr (ts.getD 1 (.vint 0))
  | .vlist ts => sitePlusOneStr (ts.getD 0 (.vint 0)) ++ "," ++ sitePlusOneStr (ts.getD 1 (.vint 0))
  | _ => ""

/-- The elements joined by the enum-list branch (lines 183-194):
`str(op).strip("'")`. -/
def enumElemStr (op : PyVal) : String :=
  stripChars (pyStr op) ['\x27']

/-- One `key = value` line of the input file, `none` when the key writes no
line (lines 159-214).  The branch order matches the source `elif` chain; in
particular any ndarray value not caught by the coupling-matrix branch is
serialized by the generic ndarray branch before the key-specific branches
are consulted. -/
def writeKeyLine (sOutputPath : String) (fb sb : List Nat) (k : String) (v : PyVal) :
    Option String :=
  if k = "b_unique_id" then none
  else if k = "output_files_prefix" then some (k ++ " = " ++ sOutputPath)
  else if (k == "J" || k == "J_z") &&
      (match v with | .varr _ sh _ => decide (1 < sh.headD 0) | _ => false) then
    match v with
    | .varr dtype sh data =>
        some (k ++ " = " ++ String.intercalate ","
          ((List.range fb.length).map (fun i =>
            npElemStr dtype (arrGet2 sh data (fb.getD i 0 - 1) (sb.getD i 0 - 1)))))
    | _ => none
  else
    match v with
    | .varr dtype sh data =>
        some (k ++ " = " ++ String.intercalate ","
          ((List.range (sh.headD 0)).map (axis0Str dtype sh data)))
    | _ =>
      if k = "init_pauli_state" ∨ k = "1q_components" ∨ k = "2q_components" then
        let valList := match v with
          | .vstr _ => [v]
          | .vlist l => l
          | .vtuple l => l
          | _ => []
        some (k ++ " = " ++ String.intercalate "," (valList.map enumElemStr))
      else if k = "1q_indices" then
        let sites := match v with
          | .vlist l => l
          | .vtuple l => l
          | _ => []
        some (k ++ " = " ++ serialize_1q_indices sites)
      else if k = "2q_indices" ∨ k = "init_graph_state" then
        let pairs := match v with
          | .vlist l => l
          | .vtuple l => l
          | _ => []
        some (k ++ " = " ++ String.intercalate "," (pairs.map pairPlusOneStr))
      else some (k ++ " = " ++ stripChars (pyStr v) ['[', ']'])

/-- What a successful `build` produces: the lines written to the input file
and the three instance fields it records. -/
structure BuildOutput where
  fileLines : List String
  s_input_file : String
  s_output_path : String
  s_id_suffix : String
  deriving Repr

/-- `str.replace` for the single-character pattern used on line 156
(backslash to forward slash). -/
def charReplace (s : String) (c1 c2 : Char) : String :=
  String.mk (s.toList.map (fun c => if c = c1 then c2 else c))

/-- `s[-1]`: the last character (only consulted on non-empty strings). -/
def lastChar (s : String) : Char := s.toList.getLastD 'a'

/-- `parameters.get(k, default)` when the use site needs a string; non-string
values are rejected by `verify_parameters` before these lookups run. -/
def getStrD (cfg : Config) (k : String) (d : String) : String :=
  match cfg.get k with
  | some (.vstr s) => s
  | some _ => d
  | none => d

/-- `build` (lines 90-223).  `uuidHex` is the externally generated random
token of `uuid.uuid4().hex`.  Returns the outcome (the written file's lines
plus the recorded instance fields, or the raised exception's message) paired
with the caller's parameters dictionary as it stands after the call:
`build` assigns `parameters["unique_id"]` when `b_unique_id` is truthy
(line 118).  No file is written on the error outcomes: the exceptions of
lines 109, 146 and the bond-loop shape accesses all precede `open` on
line 158.  The `print` calls write to stdout only and are not modelled. -/
def build (uuidHex : String) (cfg0 : Config) : Except String BuildOutput × Config :=
  match verify_parameters cfg0 none with
  | .error e => (.error e, cfg0)
  | .ok chk =>
    if chk ≠ "" then (.error chk, cfg0)
    else
      let s0 := getStrD cfg0 "output_files_prefix" ""
      let s1 := if s0 = "" ∨ ['/', '.', '\\'].contains (lastChar s0) then s0 ++ "lindblad" else s0
      let bUuid := pyTruthy ((cfg0.get "b_unique_id").getD (.vbool false))
      let cfg := if bUuid then cfg0.set "unique_id" (.vstr uuidHex) else cfg0
      let sUuid := if bUuid then uuidHex else getStrD cfg0 "unique_id" ""
      let sIdSuffix := if sUuid ≠ "" then "." ++ sUuid else ""
      let sOutputPath := s1 ++ sIdSuffix
      let sInputFile := charReplace (sOutputPath ++ ".input.txt") '\\' '/'
      match bondStep cfg with
      | .error e => (.error e, cfg)
      | .ok (bBond, fb, sb) =>
          let keyLines := cfg.filterMap (fun kv => writeKeyLine sOutputPath fb sb kv.1 kv.2)
          let bondLines :=
            if bBond then
              ["first_bond_indices = " ++ String.intercalate "," (fb.map toString),
               "second_bond_indices = " ++ String.intercalate "," (sb.map toString)]
            else []
          (.ok { fileLines := keyLines ++ bondLines,
                 s_input_file := sInputFile,
                 s_output_path := sOutputPath,
                 s_id_suffix := sIdSuffix }, cfg)

/-- A key of the result mapping: lower-cased observable name and zero-based
site-index tuple. -/
abbrev ObsKey := String × List Int

/-- One parsed output file: an insertion-ordered mapping from `ObsKey` to the
pair of parallel (times, values) sequences. -/
abbrev ResultMap := List (ObsKey × (List ℚ × List ℚ))

/-- First-occurrence lookup in a `ResultMap` (`result.get(key)`). -/
def ResultMap.find : ResultMap → ObsKey → Option (List ℚ × List ℚ)
  | [], _ => none
  | (k, d) :: rest, key => if k = key then some d else ResultMap.find rest key

/-- The accumulation step of `_read_data_line` (lines 321-328): append the
time and value to the key's two parallel sequences, creating the key at the
end of the mapping when it is new. -/
def updateAppend : ResultMap → ObsKey → ℚ → ℚ → ResultMap
  | [], key, t, v => [(key, ([t], [v]))]
  | (k, d) :: rest, key, t, v =>
      if k = key then (k, (d.1 ++ [t], d.2 ++ [v])) :: rest
      else (k, d) :: updateAppend rest key t v

/-- `words[i]` with Python's IndexError. -/
def idxWord (words : List String) (i : Nat) : Except String String :=
  match words.get? i with
  | some w => .ok w
  | none => .error "IndexError: list index out of range"

/-- `_read_data_line` (lines 301-328): parse one whitespace-tokenized data
row and accumulate it into the result mapping. -/
def _read_data_line (s_output_type : String) (words : List String) (result : ResultMap) :
    Except String ResultMap := do
  let w0 ← idxWord words 0
  let t ← pyParseFloat w0
  let op ← idxWord words 1
  let wLast ← match words.getLast? with
    | some w => Except.ok w
    | none => Except.error "IndexError: list index out of range"
  let val ← pyParseFloat wLast
  let q_indices ←
    if s_output_type = "obs-1q" then do
      let w2 ← idxWord words 2
      let i1 ← pyParseInt w2
      Except.ok [deserSiteIndex i1]
    else if s_output_type = "obs-2q" then do
      let w2 ← idxWord words 2
      let i1 ← pyParseInt w2
      let w3 ← idxWord words 3
      let i2 ← pyParseInt w3
      Except.ok [deserSiteIndex i1, deserSiteIndex i2]
    else if s_output_type = "global" then Except.ok ([] : List Int)
    else Except.error ("Unknown output type " ++ s_output_type ++ ".")
  pure (updateAppend result (strLower op, q_indices) t val)

/-- `line.strip().split()`: whitespace tokenization with no empty tokens. -/
def splitWords (line : String) : List String :=
  ((List.splitOnP Char.isWhitespace (strTrim line).toList).map String.mk).filter (· ≠ "")

/-- `_read_data_file` (lines 276-299) on the lines of one output file: the
first line is the discarded header, blank lines are skipped, every other
line is accumulated in file order. -/
def _read_data_file (s_output_type : String) (lines : List String) :
    Except String ResultMap :=
  (lines.drop 1).foldlM
    (fun res line =>
      let words := splitWords line
      if words.isEmpty then pure res
      else _read_data_line s_output_type words res)
    []

/-- The result of `load_output`: the three per-type mappings. -/
abbrev ResultDict := List (String × ResultMap)

/-- `load_output` (lines 256-274) with the file system abstracted as a map
from output type to that file's lines. -/
def load_output (fileLines : String → List String) : Except String ResultDict := do
  let r1 ← _read_data_file "obs-1q" (fileLines "obs-1q")
  let r2 ← _read_data_file "obs-2q" (fileLines "obs-2q")
  let r3 ← _read_data_file "global" (fileLines "global")
  pure [("obs-1q", r1), ("obs-2q", r2), ("global", r3)]

/-- The execute-and-load phase of `solve` (lines 50-53), for an instance
whose input file is already built.  The external solver's exit code is an
oracle input; `loader` stands for `load_output` and is consulted only on a
zero exit code.  Returns the raised exception's message (if any) together
with the value of `self.result` after the call: on a non-zero exit code the
exception of line 52 is raised before the assignment on line 53, so the
previously stored result is kept. -/
def solveRun (exitCode : Int) (loader : Unit → ResultDict) (stored : ResultDict) :
    Option String × ResultDict :=
  if exitCode ≠ 0 then (some "There was an error executing the solver.", stored)
  else (none, loader ())

/-! ## Theorems about the claims -/

/-- Lookup after `updateAppend`: the updated key's parallel sequences are the
old ones (empty for a new key) with the new time and value appended at the
end; every other key's entry is untouched. -/
theorem find_updateAppend (r : ResultMap) (k k' : ObsKey) (t v : ℚ) :
    ResultMap.find (updateAppend r k t v) k' =
      if k' = k then
        some ((((ResultMap.find r k).getD ([], [])).1 ++ [t],
               ((ResultMap.find r k).getD ([], [])).2 ++ [v]))
      else ResultMap.find r k' := by
  induction r with
  | nil =>
      by_cases h : k' = k
      · subst h; simp [updateAppend, ResultMap.find]
      · have h2 : ¬ k = k' := fun hh => h hh.symm
        simp [updateAppend, ResultMap.find, h, h2]
  | cons hd tl ih =>
      obtain ⟨k0, d⟩ := hd
      by_cases h0 : k0 = k
      · subst h0
        by_cases h : k' = k0
        · subst h; simp [updateAppend, ResultMap.find]
        · have h2 : ¬ k0 = k' := fun hh => h hh.symm
          simp [updateAppend, ResultMap.find, h, h2]
      · by_cases h : k' = k0
        · subst h
          have h2 : ¬ k = k' := fun hh => h0 hh.symm
          simp [updateAppend, ResultMap.find, h0, h2, ih]
        · have h2 : ¬ k0 = k' := fun hh => h hh.symm
          simp [updateAppend, ResultMap.find, h0, h, h2, ih]

/-- C1: a configuration missing any of the required keys `N`, `t_final`,
`tau` makes `verify_parameters` return (not raise) exactly the non-empty
Error 110 missing-key diagnostic, before any per-key or cross-key rule is
evaluated. -/
theorem claim_C1_missing_required_keys (cfg : Config) (ig : Option (List String))
    (h : cfg.get "N" = none ∨ cfg.get "t_final" = none ∨ cfg.get "tau" = none) :
    verify_parameters cfg ig =
      .ok "Error 110: N, t_final and tau must be defined as they do not have default values\n" ∧
    ("Error 110: N, t_final and tau must be defined as they do not have default values\n" : String) ≠ "" := by
  refine ⟨?_, by decide⟩
  unfold verify_parameters
  rcases h with h | h | h <;> simp [h]

/-- Witness for C1 at the empty configuration. -/
theorem claim_C1_missing_required_keys_witness :
    verify_parameters [] none =
      .ok "Error 110: N, t_final and tau must be defined as they do not have default values\n" ∧
    ("Error 110: N, t_final and tau must be defined as they do not have default values\n" : String) ≠ "" :=
  claim_C1_missing_required_keys [] none (Or.inl rfl)

/-- C2, counterexample to the claim as stated: for `{N:2, t_final:1.0,
tau:0.5}` validation succeeds and `build` writes exactly the three parameter
lines — no `output_files_prefix = lindblad` line is written, because the
writing loop only iterates over keys present in the dictionary. -/
theorem claim_C2_counterexample :
    verify_parameters [("N", .vint 2), ("t_final", .vfloat 1), ("tau", .vfloat (mkRat 1 2))] none = .ok "" ∧
    (build "" [("N", .vint 2), ("t_final", .vfloat 1), ("tau", .vfloat (mkRat 1 2))]).1 =
      .ok ⟨["N = 2", "t_final = 1.0", "tau = 0.5"], "lindblad.input.txt", "lindblad", ""⟩ ∧
    "output_files_prefix = lindblad" ∉ ["N = 2", "t_final = 1.0", "tau = 0.5"] :=
  ⟨rfl, rfl, by decide⟩

/-- C2 as amended: the configuration `{N:2, t_final:1.0, tau:0.5}` validates
with empty diagnostic text, and `build` writes an input file whose lines are
`N = 2`, `t_final = 1.0`, `tau = 0.5`; the prefix `lindblad` appears as the
recorded output path (and input-file name), not as a file line. -/
theorem claim_C2_amended :
    verify_parameters [("N", .vint 2), ("t_final", .vfloat 1), ("tau", .vfloat (mkRat 1 2))] none = .ok "" ∧
    (build "" [("N", .vint 2), ("t_final", .vfloat 1), ("tau", .vfloat (mkRat 1 2))]).1 =
      .ok ⟨["N = 2", "t_final = 1.0", "tau = 0.5"], "lindblad.input.txt", "lindblad", ""⟩ :=
  ⟨rfl, rfl⟩

/-- C3: an `obs-1q` file of one header line plus the data row
`0.5 z 1 0.732` deserializes to the single-entry mapping
`('z', (0,)) -> ([0.5], [0.732])`, whatever the header says; and in general
every obs-1q data row (any time, observable-name, 1-based site-index and
value tokens, however they parse) appends its time and value at the end of
the two parallel sequences of the key made of the lower-cased observable
name and the zero-based site-index tuple, in any partially accumulated
mapping, leaving every other key's entry unchanged. -/
theorem claim_C3_obs1q_deserialization :
    (∀ header : String,
      _read_data_file "obs-1q" [header, "0.5 z 1 0.732"] =
        .ok [(("z", [0]), ([mkRat 1 2], [mkRat 183 250]))]) ∧
    (∀ (wt op wsite wv : String) (t : ℚ) (i : Int) (val : ℚ) (r : ResultMap) (k : ObsKey),
      pyParseFloat wt = .ok t →
      pyParseInt wsite = .ok i →
      pyParseFloat wv = .ok val →
      ∃ r', _read_data_line "obs-1q" [wt, op, wsite, wv] r = .ok r' ∧
        ResultMap.find r' k =
          if k = (strLower op, [deserSiteIndex i]) then
            some ((((ResultMap.find r (strLower op, [deserSiteIndex i])).getD ([], [])).1 ++ [t],
                   ((ResultMap.find r (strLower op, [deserSiteIndex i])).getD ([], [])).2 ++ [val]))
          else ResultMap.find r k) := by
  constructor
  · intro header; rfl
  · intro wt op wsite wv t i val r k h1 h2 h3
    refine ⟨updateAppend r (strLower op, [deserSiteIndex i]) t val, ?_, ?_⟩
    · simp [_read_data_line, idxWord, h1, h2, h3, Bind.bind, Except.bind, Pure.pure, Except.pure]
    · exact find_updateAppend r (strLower op, [deserSiteIndex i]) k t val

/-- Witness for C3's universal row clause at the row `0.5 Z 1 0.732`: the
upper-case observable name is folded to lower case in the key. -/
theorem claim_C3_obs1q_deserialization_witness :
    ∃ r', _read_data_line "obs-1q" ["0.5", "Z", "1", "0.732"] [] = .ok r' ∧
      ResultMap.find r' ("z", [0]) =
        if (("z", [0]) : ObsKey) = (strLower "Z", [deserSiteIndex 1]) then
          some ((((ResultMap.find [] (strLower "Z", [deserSiteIndex 1])).getD ([], [])).1 ++ [mkRat 1 2],
                 ((ResultMap.find [] (strLower "Z", [deserSiteIndex 1])).getD ([], [])).2 ++ [mkRat 183 250]))
        else ResultMap.find [] ("z", [0]) :=
  claim_C3_obs1q_deserialization.2 "0.5" "Z" "1" "0.732" (mkRat 1 2) 1 (mkRat 183 250)
    [] ("z", [0]) rfl rfl rfl

/-- C4: the serializer's site-index transform (`i+1`, used for `1q_indices`)
and the deserializer's transform (`w-1`, used on file indices) are exact
inverses on any list of zero-based indices; concretely, the serialized form
of the index list `[2, 0, 1]` is `3,1,2`, and re-parsing its comma-separated
tokens through the deserializer's transform restores `[2, 0, 1]`. -/
theorem claim_C4_index_round_trip :
    (∀ l : List Int, (l.map serSiteIndex).map deserSiteIndex = l) ∧
    serialize_1q_indices [.vint 2, .vint 0, .vint 1] = "3,1,2" ∧
    (splitCommas "3,1,2").map (fun w => (pyParseInt w).map deserSiteIndex) =
      [.ok 2, .ok 0, .ok 1] := by
  refine ⟨fun l => ?_, rfl, rfl⟩
  simp [serSiteIndex, deserSiteIndex, List.map_map, Function.comp_def]

/-- C7: a non-zero solver exit code makes `solve` raise the fatal error of
line 52; `load_output` (the `loader` oracle) is never consulted — the result
is the same for every loader — and the previously stored result is kept. -/
theorem claim_C7_nonzero_exit_fatal (exitCode : Int) (loader : Unit → ResultDict)
    (stored : ResultDict) (h : exitCode ≠ 0) :
    solveRun exitCode loader stored =
      (some "There was an error executing the solver.", stored) := by
  simp [solveRun, h]

/-- Witness for C7 at exit code 1. -/
theorem claim_C7_nonzero_exit_fatal_witness :
    solveRun 1 (fun _ => []) [] = (some "There was an error executing the solver.", []) :=
  claim_C7_nonzero_exit_fatal 1 (fun _ => []) [] (by decide)

/-- C8: `verify_parameters` is not exception-free.  On
`{N:2, t_final:"x", tau:0.5, t_init:0.0}` the `t_init` rule of line 402
compares `t_init` with the ill-typed `t_final` and Python raises a
TypeError, although the function's contract (and its handling of the same
ill-typed `t_final` under Error 140) is to report problems as returned
diagnostic text. -/
theorem claim_C8_type_error_escape :
    verify_parameters
      [("N", .vint 2), ("t_final", .vstr "x"), ("tau", .vfloat (mkRat 1 2)), ("t_init", .vfloat 0)] none =
      .error "TypeError: comparison not supported between numeric and non-numeric" := rfl

/-- The bond loop's fold, started from any accumulator, appends to both
lists exactly the (one-based) coordinates of the traversed positions at
which at least one of the two entry functions is non-zero. -/
theorem foldl_bondAppendStep (f g : Nat → Nat → ℚ) (pairs : List (Nat × Nat))
    (acc : List Nat × List Nat) :
    pairs.foldl (bondAppendStep f g) acc =
      (acc.1 ++ (pairs.filter (fun p => decide (f p.1 p.2 ≠ 0 ∨ g p.1 p.2 ≠ 0))).map (fun p => p.1 + 1),
       acc.2 ++ (pairs.filter (fun p => decide (f p.1 p.2 ≠ 0 ∨ g p.1 p.2 ≠ 0))).map (fun p => p.2 + 1)) := by
  induction pairs generalizing acc with
  | nil => simp
  | cons p ps ih =>
      by_cases hp : f p.1 p.2 ≠ 0 ∨ g p.1 p.2 ≠ 0 <;>
        simp [bondAppendStep, hp, ih, List.filter_cons]

/-- C5: the two bond-index lists computed by `build`'s double loop have equal
length, and zipped together they enumerate exactly the positions (in
row-major traversal order) at which at least one of the two equal-shaped
coupling matrices is non-zero, each written one-based as (i+1, j+1). -/
theorem claim_C5_bond_indices (r c : Nat) (J Jz : Nat → Nat → ℚ) :
    (bondLoop r c J Jz).1.length = (bondLoop r c J Jz).2.length ∧
    (bondLoop r c J Jz).1.zip (bondLoop r c J Jz).2 =
      ((rowMajorPairs r c).filter (fun p => decide (J p.1 p.2 ≠ 0 ∨ Jz p.1 p.2 ≠ 0))).map
        (fun p => (p.1 + 1, p.2 + 1)) := by
  have h := foldl_bondAppendStep J Jz (rowMajorPairs r c) ([], [])
  constructor
  · simp [bondLoop, h]
  · simp [bondLoop, h, List.zip_map']

/-- Overwriting one key of a parameters dictionary leaves the lookups of all
other keys unchanged. -/
theorem Config.get_set_ne (c : Config) (k k' : String) (v : PyVal) (h : k' ≠ k) :
    (Config.set c k' v).get k = c.get k := by
  induction c with
  | nil => simp [Config.set, Config.get, h]
  | cons hd tl ih =>
      obtain ⟨k0, v0⟩ := hd
      by_cases h0 : k0 = k'
      · subst h0
        simp [Config.set, Config.get, h]
      · simp [Config.set, Config.get, h0, ih]

/-- C6: when `J` and `J_z` are both dense arrays of different shapes, `build`
raises (either the validator's diagnostic or the shape-mismatch exception of
line 146) and no input file is written: every error outcome precedes the
file-creating `open` of line 158. -/
theorem claim_C6_shape_mismatch_raises (cfg : Config) (u : String)
    (d1 d2 : String) (sh1 sh2 : List Nat) (da1 da2 : List ℚ)
    (hJ : cfg.get "J" = some (.varr d1 sh1 da1))
    (hJz : cfg.get "J_z" = some (.varr d2 sh2 da2))
    (hsh : sh1 ≠ sh2) :
    ∃ msg, (build u cfg).1 = .error msg := by
  have hbond : ∀ c : Config, c.get "J" = some (.varr d1 sh1 da1) →
      c.get "J_z" = some (.varr d2 sh2 da2) →
      bondStep c = .error "J and J_z are not of the same size." := by
    intro c h1 h2
    simp [bondStep, getArr, h1, h2, hsh]
  unfold build
  rcases hv : verify_parameters cfg none with e | chk
  · exact ⟨e, by simp [hv]⟩
  · simp only [hv]
    by_cases hc : chk = ""
    · subst hc
      by_cases hbu : pyTruthy ((cfg.get "b_unique_id").getD (.vbool false))
      · have h1 : (Config.set cfg "unique_id" (.vstr u)).get "J" = some (.varr d1 sh1 da1) := by
          rw [Config.get_set_ne cfg "J" "unique_id" (.vstr u) (by decide)]
          exact hJ
        have h2 : (Config.set cfg "unique_id" (.vstr u)).get "J_z" = some (.varr d2 sh2 da2) := by
          rw [Config.get_set_ne cfg "J_z" "unique_id" (.vstr u) (by decide)]
          exact hJz
        exact ⟨"J and J_z are not of the same size.",
          by simp [hbu, hbond _ h1 h2]⟩
      · exact ⟨"J and J_z are not of the same size.",
          by simp [hbu, hbond _ hJ hJz]⟩
    · exact ⟨chk, by simp [hc]⟩

/-- Witness for C6: a one-dimensional `J` of size 1 and a 1×1 `J_z` both pass
validation but have different shape tuples, so `build` raises. -/
theorem claim_C6_shape_mismatch_raises_witness :
    ∃ msg, (build "" [("N", .vint 1), ("t_final", .vfloat 1), ("tau", .vfloat (mkRat 1 2)),
      ("J", .varr "float64" [1] [mkRat 1 2]),
      ("J_z", .varr "float64" [1, 1] [mkRat 1 2])]).1 = .error msg :=
  claim_C6_shape_mismatch_raises _ "" "float64" "float64" [1] [1, 1]
    [mkRat 1 2] [mkRat 1 2] rfl rfl (by decide)

/-- C9, counterexample to the claim as stated: with `b_unique_id: True` in
the configuration, `build` mutates the caller's parameters dictionary by
storing the generated id under the key `unique_id` (line 118), so the
mapping is not left unchanged. -/
theorem claim_C9_counterexample :
    (build "abc123" [("N", .vint 1), ("t_final", .vfloat 1), ("tau", .vfloat (mkRat 1 2)),
        ("b_unique_id", .vbool true)]).2 ≠
      [("N", .vint 1), ("t_final", .vfloat 1), ("tau", .vfloat (mkRat 1 2)),
        ("b_unique_id", .vbool true)] := by
  intro hEq
  have he : (build "abc123" [("N", .vint 1), ("t_final", .vfloat 1), ("tau", .vfloat (mkRat 1 2)),
        ("b_unique_id", .vbool true)]).2 =
      [("N", .vint 1), ("t_final", .vfloat 1), ("tau", .vfloat (mkRat 1 2)),
        ("b_unique_id", .vbool true), ("unique_id", .vstr "abc123")] := rfl
  rw [he] at hEq
  have hlen := congrArg List.length hEq
  simp at hlen

/-- C9 as amended: besides writing the input file and recording the input
path, output prefix and id suffix, `build` mutates the caller's
configuration mapping only when `b_unique_id` is set and truthy (it then
stores the generated id under `unique_id`); whenever `b_unique_id` is absent
or falsy the caller's mapping is left unchanged, on success and on every
error path. -/
theorem claim_C9_amended_no_config_mutation (u : String) (cfg : Config)
    (h : pyTruthy ((cfg.get "b_unique_id").getD (.vbool false)) = false) :
    (build u cfg).2 = cfg := by
  unfold build
  rcases hv : verify_parameters cfg none with e | chk
  · simp [hv]
  · simp only [hv]
    by_cases hc : chk = ""
    · subst hc
      rcases hb : bondStep cfg with e | bs <;> simp [h, hb]
    · simp [hc]

/-- Witness for C9 as amended: a configuration without `b_unique_id` comes
back from `build` unchanged. -/
theorem claim_C9_amended_no_config_mutation_witness :
    (build "" [("N", .vint 2), ("t_final", .vfloat 1), ("tau", .vfloat (mkRat 1 2))]).2 =
      [("N", .vint 2), ("t_final", .vfloat 1), ("tau", .vfloat (mkRat 1 2))] :=
  claim_C9_amended_no_config_mutation "" _ rfl

/-- C10: a Python bool is accepted wherever an integer is required (bool is
a subclass of int), so `{N: True, t_final: 1.0, tau: 0.5}` validates with
empty diagnostic text; a key declared boolean rejects a non-bool value such
as the integer 1 with Error 390. -/
theorem claim_C10_bool_as_int :
    verify_parameters [("N", .vbool true), ("t_final", .vfloat 1), ("tau", .vfloat (mkRat 1 2))] none =
      .ok "" ∧
    verify_parameters
      [("N", .vint 2), ("t_final", .vfloat 1), ("tau", .vfloat (mkRat 1 2)), ("b_periodic_x", .vint 1)] none =
      .ok "Error 390: b_periodic_x should be a boolean True or False\n" :=
  ⟨rfl, rfl⟩

end LindbladMPO
